import Mathlib

/-!
Verification of two presentational components of the repository:
`Logo` (src/frontend/lib/components/NavBar/components/Logo.tsx) and
`SelectedChatPage` (src/frontend/app/chat/[chatId]/page.tsx).

Both source files are pure JSX render functions. We embed the markup each
one returns as a concrete virtual-DOM tree (`Node`), translated element by
element from the source, and settle the claims by computation over those
trees. External collaborator components (`Link`, `Image`, `PageHeading`,
`ChatProvider`, `ChatInput`, `ChatMessages`) appear in the source only as
opaque JSX elements with attributes, and are embedded the same way.
-/

/-- Value of a JSX attribute as it appears in the two source files:
either a string literal or a numeric literal. -/
inductive AttrValue
| str (s : String)
| nat (n : Nat)
deriving DecidableEq, Repr

/-- A virtual-DOM node: an element with a tag, an attribute list and a
list of children, or a text node. Collaborator components are elements
whose tag is the component name, exactly as written in the JSX. -/
inductive Node
| elem (tag : String) (attrs : List (String × AttrValue)) (children : List Node)
| text (s : String)

/-- Markup returned by `Logo` in
src/frontend/lib/components/NavBar/components/Logo.tsx, line by line:
a `Link` with `href="/"` containing an `Image` (className, src, alt,
width, height) followed by an `h1` with the bold class and the label. -/
def Logo : Node :=
  .elem "Link"
    [("href", .str "/"), ("className", .str "flex items-center gap-4")]
    [ .elem "Image"
        [ ("className", .str "rounded-full"),
          ("src", .str "/logo.png"),
          ("alt", .str "Max Smart"),
          ("width", .nat 48),
          ("height", .nat 48) ] [],
      .elem "h1" [("className", .str "font-bold")] [.text "Max Smart"] ]

/-- Markup returned by `SelectedChatPage` in
src/frontend/app/chat/[chatId]/page.tsx, line by line: a `main` with the
chat-page test id, containing a `section` with a `PageHeading`
(title, subtitle) followed by a `ChatProvider` wrapping a `div` that holds
the `ChatMessages` wrapper `div` and then `ChatInput`. -/
def SelectedChatPage : Node :=
  .elem "main"
    [ ("className", .str "flex flex-col w-full pt-10"),
      ("data-testid", .str "chat-page") ]
    [ .elem "section"
        [("className", .str "flex flex-col flex-1 items-center w-full h-full min-h-[70vh]")]
        [ .elem "PageHeading"
            [ ("title", .str "Chat with Max Smart"),
              ("subtitle", .str "Talk to your AI about your data") ] [],
          .elem "ChatProvider" []
            [ .elem "div"
                [("className", .str "relative w-full flex flex-col flex-1 items-center")]
                [ .elem "div"
                    [("className", .str "flex-1 w-full flex flex-col items-center")]
                    [ .elem "ChatMessages" [] [] ],
                  .elem "ChatInput" [] [] ] ] ] ]

/-- One invocation of the `Logo` component. The source arrow function
takes no arguments, so every invocation returns the same markup. -/
def renderLogo : Unit → Node := fun _ => Logo

/-- One invocation of the `SelectedChatPage` component. The source arrow
function takes no arguments, so every invocation returns the same markup. -/
def renderSelectedChatPage : Unit → Node := fun _ => SelectedChatPage

/-- The hosting router invokes the page for a concrete value of the route
parameter `chatId`; the source component declares no parameter binding,
so the invocation discards the value. -/
def renderSelectedChatPageFor : String → Node := fun _ => SelectedChatPage

mutual

/-- Number of elements with the given tag in a tree (the root included). -/
def countTag (t : String) : Node → Nat
| .text _ => 0
| .elem tag _ children =>
    (if tag = t then 1 else 0) + countTagList t children

/-- Number of elements with the given tag across a list of trees. -/
def countTagList (t : String) : List Node → Nat
| [] => 0
| c :: cs => countTag t c + countTagList t cs

end

mutual

/-- All nodes of a tree in document (preorder) order. -/
def flatten : Node → List Node
| .text s => [.text s]
| .elem tag attrs children => .elem tag attrs children :: flattenList children

/-- Preorder traversal of a list of sibling trees. -/
def flattenList : List Node → List Node
| [] => []
| c :: cs => flatten c ++ flattenList cs

end

mutual

/-- All text-node contents of a tree in document order. -/
def collectTexts : Node → List String
| .text s => [s]
| .elem _ _ children => collectTextsList children

/-- All text-node contents across a list of sibling trees. -/
def collectTextsList : List Node → List String
| [] => []
| c :: cs => collectTexts c ++ collectTextsList cs

end

/-- Tags of all elements of a tree in document order. -/
def tagList (n : Node) : List String :=
  (flatten n).filterMap fun x =>
    match x with
    | .elem t _ _ => some t
    | .text _ => none

/-- All element subtrees of a tree whose tag is `t`, in document order. -/
def nodesWithTag (t : String) (n : Node) : List Node :=
  (flatten n).filter fun x =>
    match x with
    | .elem tag _ _ => tag == t
    | .text _ => false

/-- Attribute lists of all elements of a tree whose tag is `t`. -/
def attrsOfTag (t : String) (n : Node) : List (List (String × AttrValue)) :=
  (flatten n).filterMap fun x =>
    match x with
    | .elem tag attrs _ => if tag = t then some attrs else none
    | .text _ => none

/-- First value bound to an attribute name in an attribute list. -/
def getAttr (attrs : List (String × AttrValue)) (name : String) : Option AttrValue :=
  (attrs.find? fun p => p.1 == name).map fun p => p.2

/-- Attribute lookup on the root element of a tree. -/
def rootAttr (n : Node) (name : String) : Option AttrValue :=
  match n with
  | .elem _ attrs _ => getAttr attrs name
  | .text _ => none

/-- Index of the first occurrence of a tag in a tag list. -/
def firstIdx (t : String) : List String → Option Nat
| [] => none
| s :: ss => if s = t then some 0 else (firstIdx t ss).map (· + 1)

/-- True when an element tagged `t1` occurs and its first occurrence
precedes the first occurrence of an element tagged `t2` in document
order of the tree. -/
def tagBefore (t1 t2 : String) (n : Node) : Bool :=
  match firstIdx t1 (tagList n), firstIdx t2 (tagList n) with
  | some i, some j => decide (i < j)
  | _, _ => false

/-- C1: Logo renders exactly one link element, and that link's destination
is the root path "/". -/
theorem logo_single_root_link :
    countTag "Link" Logo = 1 ∧
    (attrsOfTag "Link" Logo).map (fun a => getAttr a "href") =
      [some (AttrValue.str "/")] := by
  decide

/-- C2: SelectedChatPage renders exactly one heading, with title
"Chat with Max Smart" and subtitle "Talk to your AI about your data". -/
theorem chat_page_single_heading :
    countTag "PageHeading" SelectedChatPage = 1 ∧
    (attrsOfTag "PageHeading" SelectedChatPage).map
        (fun a => (getAttr a "title", getAttr a "subtitle")) =
      [(some (AttrValue.str "Chat with Max Smart"),
        some (AttrValue.str "Talk to your AI about your data"))] := by
  decide

/-- C3: in SelectedChatPage's output the message-list region
(ChatMessages) appears before the input region (ChatInput), there is
exactly one ChatProvider, and both regions occur exactly once, as
descendants of that single provider. -/
theorem chat_page_messages_before_input :
    tagBefore "ChatMessages" "ChatInput" SelectedChatPage = true ∧
    countTag "ChatProvider" SelectedChatPage = 1 ∧
    countTag "ChatMessages" SelectedChatPage = 1 ∧
    countTag "ChatInput" SelectedChatPage = 1 ∧
    (nodesWithTag "ChatProvider" SelectedChatPage).map
        (fun p => (countTag "ChatMessages" p, countTag "ChatInput" p)) =
      [(1, 1)] := by
  decide

/-- C4: the image rendered by Logo is unique and has width 48 and
height 48. -/
theorem logo_image_48 :
    countTag "Image" Logo = 1 ∧
    (attrsOfTag "Image" Logo).map
        (fun a => (getAttr a "width", getAttr a "height")) =
      [(some (AttrValue.nat 48), some (AttrValue.nat 48))] := by
  decide

/-- C5: the text label rendered by Logo equals "Max Smart" and its
element carries the bold-display class. -/
theorem logo_label_bold :
    (nodesWithTag "h1" Logo).map collectTexts = [["Max Smart"]] ∧
    (attrsOfTag "h1" Logo).map (fun a => getAttr a "className") =
      [some (AttrValue.str "font-bold")] := by
  decide

/-- C6: both components are deterministic pure functions of no input: any
two invocations of Logo, and any two invocations of SelectedChatPage,
return identical markup. -/
theorem components_deterministic :
    ∀ u v : Unit,
      renderLogo u = renderLogo v ∧
      renderSelectedChatPage u = renderSelectedChatPage v :=
  fun _ _ => ⟨rfl, rfl⟩

/-- C7: the rendered output of SelectedChatPage does not depend on the
route parameter chatId: any two parameter values yield identical
markup. -/
theorem chat_page_ignores_chat_id :
    ∀ c1 c2 : String,
      renderSelectedChatPageFor c1 = renderSelectedChatPageFor c2 :=
  fun _ _ => rfl

/-- C8: in SelectedChatPage's output the page heading appears before the
provider-scoped region, and no heading occurs inside the ChatProvider
subtree. -/
theorem heading_before_and_outside_provider :
    tagBefore "PageHeading" "ChatProvider" SelectedChatPage = true ∧
    (nodesWithTag "ChatProvider" SelectedChatPage).map
        (countTag "PageHeading") = [0] := by
  decide

/-- C9: the fallback (alt) text of the image rendered by Logo equals
"Max Smart", the same string as the visible text label. -/
theorem logo_image_alt_matches_label :
    (attrsOfTag "Image" Logo).map (fun a => getAttr a "alt") =
      [some (AttrValue.str "Max Smart")] ∧
    (nodesWithTag "h1" Logo).map collectTexts = [["Max Smart"]] := by
  decide

/-- C10: within the link rendered by Logo the image appears before the
text label, and the root element of SelectedChatPage carries the test
identifier "chat-page". -/
theorem logo_order_and_page_testid :
    tagBefore "Image" "h1" Logo = true ∧
    rootAttr SelectedChatPage "data-testid" =
      some (AttrValue.str "chat-page") := by
  decide
